import Mathlib

set_option maxRecDepth 100000

/-!
Verification development for the NASA RAG evaluation pipeline
(`Course_02/project/starter_files`): `rag_client.py`, `llm_client.py`,
`ragas_evaluator.py` and `batch_evaluate.py`.

The Python functions are shallowly embedded as total Lean functions.
External collaborators (the ChromaDB collection, the OpenAI chat endpoint,
the RAGAS metric scorer) are modelled as oracle parameters: an oracle value
of `Except.error e` stands for the corresponding Python call raising an
exception whose `str` is `e`.  Python strings are modelled through
`String`/`List Char` (one element per code point, matching Python `len`
and slicing); numeric scores are modelled as rationals.
-/

/-- Python truthiness of the whitespace set recognised by `str.strip()`
and by the regex class `\s` for ASCII text. -/
def pyIsSpace (c : Char) : Bool :=
  c = ' ' || c = '\t' || c = '\n' || c = '\r' || c = '\x0b' || c = '\x0c'

/-- Python `str.strip()` on the underlying character list. -/
def pyStripList (l : List Char) : List Char :=
  ((l.dropWhile pyIsSpace).reverse.dropWhile pyIsSpace).reverse

/-- Python `str.strip()`. -/
def pyStrip (s : String) : String := ⟨pyStripList s.data⟩

/-- Python `s.startswith(p)`. -/
def pyStartswith (s p : String) : Bool := p.data.isPrefixOf s.data

/-- Python `s.replace("_", " ")`: for a one-character pattern this is a
character-wise map. -/
def underscoresToSpaces (s : String) : String :=
  ⟨s.data.map fun c => if c = '_' then ' ' else c⟩

/-- Helper for `pyTitle`: the boolean records whether the previous character
was alphabetic (Python title-case starts a new word after any non-cased
character; for the ASCII metadata handled here, cased equals alphabetic). -/
def pyTitleGo : Bool → List Char → List Char
  | _, [] => []
  | prevAlpha, c :: cs =>
    if c.isAlpha then
      (if prevAlpha then c.toLower else c.toUpper) :: pyTitleGo true cs
    else
      c :: pyTitleGo false cs

/-- Python `str.title()`. -/
def pyTitle (s : String) : String := ⟨pyTitleGo false s.data⟩

/-- Python `"\n".join(parts)`. -/
def join_newline : List String → String
  | [] => ""
  | [s] => s
  | s :: rest => s ++ "\n" ++ join_newline rest

/-- The metadata dictionary of one retrieved document, with the three keys read by
`rag_client.format_context` (`mission`, `source`, `document_category`); a
`none` field models an absent key, handled by `dict.get(key, "unknown")`. -/
structure Metadata where
  mission : Option String
  source : Option String
  document_category : Option String
deriving DecidableEq, Repr

/-- The document-body truncation from `rag_client.format_context`
(`rag_client.py` lines 168-173): `doc[:1000] + "..."` when
`len(doc) > 1000`, else the body unchanged. -/
def doc_content (doc : String) : String :=
  if 1000 < doc.data.length then ⟨doc.data.take 1000⟩ ++ "..." else doc

/-- The per-document source header from `rag_client.format_context`
(`rag_client.py` lines 150-164), with `i` the 1-based index. -/
def source_header (i : Nat) (metadata : Metadata) : String :=
  "\n[Source " ++ toString i ++ "] Mission: "
    ++ pyTitle (underscoresToSpaces (metadata.mission.getD "unknown"))
    ++ " | Document: " ++ metadata.source.getD "unknown"
    ++ " | Category: "
    ++ pyTitle (underscoresToSpaces (metadata.document_category.getD "unknown"))

/-- The loop body of `rag_client.format_context`
(`for i, (doc, metadata) in enumerate(zip(documents, metadatas), 1)`):
each document contributes its source header and its (possibly truncated)
body, in input order. -/
def context_parts_loop : Nat → List (String × Metadata) → List String
  | _, [] => []
  | i, (doc, metadata) :: rest =>
    source_header i metadata :: doc_content doc :: context_parts_loop (i + 1) rest

/-- Embedding of `rag_client.format_context(documents, metadatas)` (`rag_client.py`
lines 131-179): the two-parameter context assembler defined in src.  It
emits a fixed header line followed by one section per `zip`ped
document/metadata pair and joins everything with newlines; it performs no
deduplication of any kind. -/
def format_context (documents : List String) (metadatas : List Metadata) : String :=
  if documents.isEmpty then ""
  else
    join_newline
      ("Retrieved Context from NASA Mission Documents:\n"
        :: context_parts_loop 1 (documents.zip metadatas))

/-- One chat message, as the role/content dictionaries built by
`llm_client.generate_response`. -/
structure Message where
  role : String
  content : String
deriving DecidableEq, Repr

/-- The system prompt defined in `llm_client.generate_response`
(`llm_client.py` lines 24-37), verbatim. -/
def nasa_system_prompt : String :=
  "You are an expert NASA historian and space mission specialist with deep knowledge of:\n- Apollo missions (Apollo 11, Apollo 13, and others)\n- Space Shuttle missions (including Challenger)\n- Technical mission details, procedures, and communications\n- Astronaut biographies and crew compositions\n- Mission transcripts and audio recordings\n\nYour role is to provide accurate, detailed, and engaging responses about NASA space missions.\nWhen answering questions:\n1. Use the provided context from mission documents to support your answers\n2. Be specific with facts, dates, crew names, and technical details\n3. If the context doesn\x27t contain relevant information, acknowledge this\n4. Maintain a professional yet accessible tone\n5. Cite sources when referencing specific documents or transcripts"

/-- Python `history[-10:]`: the most recent ten entries (all of them when
fewer than ten exist). -/
def lastN (n : Nat) (l : List α) : List α := l.drop (l.length - n)

/-- The message list built by `llm_client.generate_response`
(`llm_client.py` lines 49-64): the system persona, then (when the history
is truthy) the last ten history turns, then (when the context string is
truthy) a system message embedding the context block, then the user
message. -/
def build_messages (user_message context : String) (conversation_history : List Message) :
    List Message :=
  ⟨"system", nasa_system_prompt⟩
    :: ((if conversation_history.isEmpty then [] else lastN 10 conversation_history)
      ++ (if context.isEmpty then []
          else [⟨"system",
            "Relevant information from mission documents:\n\n" ++ context
              ++ "\n\nPlease use this information to answer the user\x27s question."⟩])
      ++ [⟨"user", user_message⟩])

/-- Embedding of `llm_client.generate_response(openai_key, user_message, context,
conversation_history, model, base_url)` (`llm_client.py` lines 5-78).
The whole body sits in one `try` block whose `except` returns
`"Error generating response: " + str(e)`.  The oracle `complete` stands for
the external part of that block: client construction (with the key, model
and base-URL/environment handling) plus `client.chat.completions.create`
and the `response.choices[0].message.content` extraction; `Except.error e`
models that part raising an exception with `str(e) = e`.  Message building
is pure and cannot raise, so the adapter is a total function: it never
raises to its caller. -/
def generate_response (complete : List Message → Except String String)
    (openai_key user_message context : String) (conversation_history : List Message) : String :=
  match complete (build_messages user_message context conversation_history) with
  | .ok text => text
  | .error e => "Error generating response: " ++ e

/-- A value of the metric dictionaries built by
`ragas_evaluator.evaluate_response_quality` and stored in the `metrics` field of a record: either a numeric score (`float`, modelled as a rational)
or an error/info text. -/
inductive MetricValue where
  | num (q : ℚ)
  | str (s : String)
deriving DecidableEq, Repr

/-- The class names of the three metric instances configured in
`ragas_evaluator.evaluate_response_quality` (`ragas_evaluator.py`
lines 46-50), in construction order. -/
def ragas_metric_names : List String :=
  ["ResponseRelevancy", "Faithfulness", "NonLLMContextPrecisionWithReference"]

/-- Embedding of `ragas_evaluator.evaluate_response_quality(question, answer, contexts)`
(`ragas_evaluator.py` lines 16-81).  `ragas_available` is the module flag
`RAGAS_AVAILABLE`; `setup` models construction of the evaluator LLM,
embeddings and sample (the outer `try`, whose `except` returns a single
`error` entry prefixed with `"Evaluation failed: "`); the i-th entry of
`single_turn_scores` models `metric.single_turn_score(sample)` followed by
the `float` conversion for the i-th configured metric, with `Except.error
e` a raised exception of text `e`.  A failing metric contributes a `0.0`
score plus a companion `"<metric>_error"` text entry and the loop
continues; dictionary insertion order is preserved as list order (all keys
written are distinct). -/
def evaluate_response_quality (question answer : String) (contexts : List String)
    (ragas_available : Bool) (setup : Except String Unit)
    (single_turn_scores : List (Except String ℚ)) : List (String × MetricValue) :=
  if !ragas_available then [("error", .str "RAGAS not available")]
  else
    match setup with
    | .error e => [("error", .str ("Evaluation failed: " ++ e))]
    | .ok _ =>
      (ragas_metric_names.zip single_turn_scores).foldl
        (fun results p =>
          match p.2 with
          | .ok q => results ++ [(p.1, .num q)]
          | .error e => results ++ [(p.1, .num 0), (p.1 ++ "_error", .str e)])
        []

/-- The query-result dictionary returned by
`rag_client.retrieve_documents` (a ChromaDB result set, batch-of-one
convention: index 0 of each list belongs to this query).  `none` for
`distances`/`ids` models an absent or `None` entry. -/
structure DocsResult where
  documents : List (List String)
  metadatas : List (List Metadata)
  distances : Option (List (List ℚ))
  ids : Option (List (List String))
deriving DecidableEq, Repr

/-- The evaluation record built by `batch_evaluate.run_single_evaluation`
(`batch_evaluate.py` lines 124-131), initialised with `answer = None`,
`context = None`, `retrieved_docs = 0`, `metrics = {}` and `error = None`
and mutated field by field as the pipeline advances. -/
structure EvalResult where
  question : String
  answer : Option String
  context : Option String
  retrieved_docs : Nat
  metrics : List (String × MetricValue)
  error : Option String
deriving DecidableEq, Repr

/-- The freshly initialised record of `run_single_evaluation`. -/
def emptyResult (question : String) : EvalResult :=
  ⟨question, none, none, 0, [], none⟩

/-- The extraction `distances = docs_result.get("distances", [None])[0] if
docs_result.get("distances") else None` (`batch_evaluate.py` line 144):
`None` or an empty list is falsy and yields `None`. -/
def distances0 (dr : DocsResult) : Option (List ℚ) :=
  match dr.distances with
  | some (d :: _) => some d
  | _ => none

/-- The extraction `ids = docs_result.get("ids", [None])[0] if
docs_result.get("ids") else None` (`batch_evaluate.py` line 145). -/
def ids0 (dr : DocsResult) : Option (List String) :=
  match dr.ids with
  | some (i :: _) => some i
  | _ => none

/-- Python truthiness of an optional string (`if result.get("error")`):
truthy exactly when present and non-empty. -/
def pyTruthy : Option String → Bool
  | none => false
  | some s => !s.isEmpty

/-- Python call semantics of the statement
`rag_client.format_context(docs_result["documents"][0],
docs_result["metadatas"][0], distances, ids)` at `batch_evaluate.py`
lines 147-152, dispatched against the `format_context` actually defined in
the `rag_client.py` of src, which accepts exactly two positional parameters
(`documents`, `metadatas`): in Python a four-argument call to it raises
`TypeError` with this message, before the function body runs. -/
def format_context_call_src (documents : List String) (metadatas : List Metadata)
    (distances : Option (List ℚ)) (ids : Option (List String)) : Except String String :=
  .error "format_context() takes 2 positional arguments but 4 were given"

/-- Modelled from the spec: the four-parameter, deduplicating
`format_context(documents, metadatas, distances, ids)` that
`batch_evaluate.py` line 147 calls and `chat.py` lines 75-79 declares
("Format retrieved documents into context with deduplication") is missing
from src — the `rag_client.py` of src defines only a two-parameter version with
no deduplication.  Per spec §4.1/§4.4 the context step is a pure function
that always succeeds given non-empty retrieval, so this dispatch returns
normally; the record-classification claims proved with it do not depend on
the text of the returned context block, which is delegated to the
two-parameter formatter. -/
def format_context_call_ok (documents : List String) (metadatas : List Metadata)
    (distances : Option (List ℚ)) (ids : Option (List String)) : Except String String :=
  .ok (format_context documents metadatas)

/-- Embedding of `batch_evaluate.run_single_evaluation(question, collection, openai_key,
n_results, model, base_url)` (`batch_evaluate.py` lines 102-198).
Oracles:
`fc` is the dispatch of the four-argument `rag_client.format_context` call
(see `format_context_call_src`); `complete` is the generation service
behind `llm_client.generate_response`; `ragas_available` is the module
flag `RAGAS_AVAILABLE`; `ragas_eval` models the call
`ragas_evaluator.evaluate_response_quality(question, answer,
contexts_list)` — `Except.error e` a raised exception, turned into a
single `error` metrics entry by the surrounding `try`; `retrieval` models
`rag_client.retrieve_documents(collection, question, n_results)` —
`Except.error e` a raised exception (for example the embedding-dimension
mismatch, which only changes the log severity, not the record), `.ok none`
a falsy result dictionary.  The outer `except Exception` stores `str(e)`
of any raised step in the `error` field of the record; fields already assigned
(such as `retrieved_docs`) keep their values, matching the in-place
mutation of the Python dictionary.  An empty `metadatas` list makes
`docs_result["metadatas"][0]` raise `IndexError`. -/
def run_single_evaluation
    (fc : List String → List Metadata → Option (List ℚ) → Option (List String) →
      Except String String)
    (complete : List Message → Except String String)
    (ragas_available : Bool)
    (ragas_eval : Except String (List (String × MetricValue)))
    (openai_key question : String)
    (retrieval : Except String (Option DocsResult)) : EvalResult :=
  let base := emptyResult question
  match retrieval with
  | .error e => { base with error := some e }
  | .ok none => { base with error := some "No documents retrieved" }
  | .ok (some dr) =>
    match dr.documents with
    | [] => { base with error := some "No documents retrieved" }
    | docs0 :: _ =>
      let r1 := { base with retrieved_docs := docs0.length }
      match dr.metadatas with
      | [] => { r1 with error := some "list index out of range" }
      | metas0 :: _ =>
        match fc docs0 metas0 (distances0 dr) (ids0 dr) with
        | .error e => { r1 with error := some e }
        | .ok context =>
          let r2 := { r1 with context := some context }
          let answer := generate_response complete openai_key question context []
          let r3 := { r2 with answer := some answer }
          if pyStartswith answer "Error generating response:" then
            { r3 with error := some answer }
          else if ragas_available then
            match ragas_eval with
            | .ok m => { r3 with metrics := m }
            | .error e => { r3 with metrics := [("error", .str e)] }
          else
            { r3 with metrics := [("info", .str "RAGAS not available")] }

/-- Per-metric descriptive statistics built by
`batch_evaluate.calculate_statistics` (`batch_evaluate.py` lines 235-244).
`stdevSq` stores the square of the `stdev` entry (the sample variance):
the square root of a rational is not rational, and no property here
concerns the standard deviation beyond its defining data. -/
structure MetricStats where
  mean : ℚ
  median : ℚ
  stdevSq : ℚ
  min : ℚ
  max : ℚ
  count : Nat
deriving DecidableEq, Repr

/-- The aggregate-statistics dictionary of
`batch_evaluate.calculate_statistics`. -/
structure BatchStats where
  total_questions : Nat
  successful : Nat
  failed : Nat
  metrics : List (String × MetricStats)
deriving DecidableEq, Repr

/-- Ascending insertion into a sorted list: `sorted(scores)` for the
rational score lists handled by `statistics.median`. -/
def insertSorted (q : ℚ) : List ℚ → List ℚ
  | [] => [q]
  | x :: xs => if q ≤ x then q :: x :: xs else x :: insertSorted q xs

/-- Python `sorted(scores)` for numeric lists. -/
def pySorted (l : List ℚ) : List ℚ := l.foldr insertSorted []

/-- Embedding of `statistics.median(scores)`: middle element of the sorted list for odd
length, average of the two middle elements for even length. -/
def pyMedian (scores : List ℚ) : ℚ :=
  let s := pySorted scores
  let n := s.length
  if n % 2 = 1 then s.getD (n / 2) 0
  else (s.getD (n / 2 - 1) 0 + s.getD (n / 2) 0) / 2

/-- The per-metric statistics record of `calculate_statistics`
(`batch_evaluate.py` lines 235-244), for a non-empty score list:
`statistics.mean`, `statistics.median`, `statistics.stdev` (sample
standard deviation, `0.0` for a single score; stored squared, see
`MetricStats`), `min`, `max` and the count.  The Python `statistics.mean`
computes through exact fraction arithmetic, matching the rational model. -/
def metric_stats (scores : List ℚ) : MetricStats :=
  let n := scores.length
  let mean := scores.sum / n
  { mean := mean
    median := pyMedian scores
    stdevSq := if 1 < n then (scores.map (fun x => (x - mean) ^ 2)).sum / (n - 1) else 0
    min := match scores with | [] => 0 | x :: xs => xs.foldl Min.min x
    max := match scores with | [] => 0 | x :: xs => xs.foldl Max.max x
    count := n }

/-- Appending a score under a metric name in the insertion-ordered
`metric_scores` dictionary (`batch_evaluate.py` lines 230-232): a new name
is appended at the end, an existing name gets the score appended to its
list. -/
def addScore (ms : List (String × List ℚ)) (name : String) (q : ℚ) :
    List (String × List ℚ) :=
  match ms with
  | [] => [(name, [q])]
  | (n, l) :: rest =>
    if n = name then (n, l ++ [q]) :: rest else (n, l) :: addScore rest name q

/-- The inner loop of `calculate_statistics` over the metrics of one
successful record (`batch_evaluate.py` lines 228-232): numeric values whose key is
not `"error"` are collected; text values (such as `"<metric>_error"`
entries) are skipped by the `isinstance` check. -/
def collectRecord (ms : List (String × List ℚ)) (metrics : List (String × MetricValue)) :
    List (String × List ℚ) :=
  metrics.foldl
    (fun ms p =>
      match p.2 with
      | .num q => if p.1 ≠ "error" then addScore ms p.1 q else ms
      | .str _ => ms)
    ms

/-- One iteration of the record loop of `calculate_statistics`
(`batch_evaluate.py` lines 221-232): the accumulator is (successful count,
failed count, metric score lists); a record with truthy `error` only
increments the failed count, any other record increments the successful
count and contributes its numeric metrics. -/
def stepRecord (acc : Nat × Nat × List (String × List ℚ)) (r : EvalResult) :
    Nat × Nat × List (String × List ℚ) :=
  if pyTruthy r.error then (acc.1, acc.2.1 + 1, acc.2.2)
  else (acc.1 + 1, acc.2.1, collectRecord acc.2.2 r.metrics)

/-- Embedding of `batch_evaluate.calculate_statistics(results)` (`batch_evaluate.py`
lines 201-246). -/
def calculate_statistics (results : List EvalResult) : BatchStats :=
  let acc := results.foldl stepRecord (0, 0, [])
  { total_questions := results.length
    successful := acc.1
    failed := acc.2.1
    metrics := (acc.2.2.filter (fun p => !p.2.isEmpty)).map
      (fun p => (p.1, metric_stats p.2)) }

/-- The success-rate computation of `batch_evaluate.main`
(`batch_evaluate.py` line 460): the quotient of the successful count by
`total_questions` when the total is positive, else `0`. -/
def success_rate (stats : BatchStats) : ℚ :=
  if 0 < stats.total_questions then (stats.successful : ℚ) / (stats.total_questions : ℚ)
  else 0

/-- The exit policy of `batch_evaluate.main` (`batch_evaluate.py` lines
459-462): process exit code `1` (`sys.exit(1)`) when the success rate is
strictly below one half, else the implicit `0`. -/
def main_exit_code (stats : BatchStats) : Nat :=
  if success_rate stats < 1 / 2 then 1 else 0

/-- Helper for `re_split_sep`: scans the text left to right, cutting at
each non-overlapping occurrence of the separator (the semantics of
`re.split` for a pattern with no regex metacharacters).  The fuel is an
upper bound on the scanned length; every step consumes at least one
character, so fuel equal to the text length suffices. -/
def splitOnAux (sep : List Char) : Nat → List Char → List Char → List (List Char)
  | _, [], acc => [acc.reverse]
  | 0, rest, acc => [acc.reverse ++ rest]
  | fuel + 1, c :: cs, acc =>
    if sep.isPrefixOf (c :: cs) then
      acc.reverse :: splitOnAux sep fuel ((c :: cs).drop sep.length) []
    else
      splitOnAux sep fuel cs (c :: acc)

/-- Embedding of the split on the pattern backslash-n dash dash dash backslash-n
(`re.split` at `batch_evaluate.py` line 64): the
pattern contains no metacharacters, so this is a literal split. -/
def re_split_sep (sep : String) (s : String) : List String :=
  (splitOnAux sep.data s.data.length s.data []).map (⟨·⟩)

/-- The lazy extension of `(.+?)(?=alts|\Z)` after its first character:
before consuming each further character the engine tests the lookahead
alternatives (and `\Z`, end of input); without `re.DOTALL` the dot cannot
consume a newline, which fails this branch of the match. -/
def lazyCaptureGo (dotall : Bool) (alts : List (List Char)) :
    List Char → List Char → Option (List Char)
  | acc, [] => some acc.reverse
  | acc, c :: rest =>
    if alts.any (fun a => a.isPrefixOf (c :: rest)) then some acc.reverse
    else if !dotall && c = '\n' then none
    else lazyCaptureGo dotall alts (c :: acc) rest

/-- The capture group `(.+?)(?=alts|\Z)`: at least one character, then the
lazy extension. -/
def captureLazyPlus (dotall : Bool) (alts : List (List Char)) :
    List Char → Option (List Char)
  | [] => none
  | c :: rest =>
    if !dotall && c = '\n' then none else lazyCaptureGo dotall alts [c] rest

/-- First success over a candidate list. -/
def firstSome (f : Nat → Option (List Char)) : List Nat → Option (List Char)
  | [] => none
  | j :: rest =>
    match f j with
    | some r => some r
    | none => firstSome f rest

/-- Indices of newline characters inside the leading whitespace run, in
decreasing order: the candidate split points of greedy `\s*` followed by
`\n` (the greedy star first consumes as much whitespace as possible and
backtracks, so the last newline of the run is tried first). -/
def nlCandidates (run : List Char) : List Nat :=
  ((List.range run.length).filter (fun j => run.get? j = some '\n')).reverse

/-- Matching `\s*\n(.+?)(?=alts|\Z)` against the text following the
literal marker: try each greedy split of `\s*\n`, then the capture. -/
def matchAfterMarker (dotall : Bool) (alts : List (List Char)) (rest : List Char) :
    Option (List Char) :=
  firstSome (fun j => captureLazyPlus dotall alts (rest.drop (j + 1)))
    (nlCandidates (rest.takeWhile pyIsSpace))

/-- Embedding of `re.search` for the three block patterns of
`batch_evaluate.parse_evaluation_dataset`, all of the shape
`marker\s*\n(.+?)(?=alts|\Z)` with a literal marker: the leftmost starting
position at which the whole pattern matches wins, and the capture group is
returned. -/
def re_search_block (marker : List Char) (dotall : Bool) (alts : List (List Char)) :
    List Char → Option (List Char)
  | [] => none
  | c :: rest =>
    match
      (if marker.isPrefixOf (c :: rest) then
        matchAfterMarker dotall alts ((c :: rest).drop marker.length)
      else none)
    with
    | some r => some r
    | none => re_search_block marker dotall alts rest

/-- The question-block search of `batch_evaluate.py` line 71: marker
`**Question:**`, then the whitespace-newline bridge, then a lazy capture
stopped by a lookahead for newline-plus-asterisks or a blank line or end
of input, under `re.DOTALL`. -/
def question_capture (sec : List Char) : Option (List Char) :=
  re_search_block "**Question:**".data true ["\n**".data, "\n\n".data] sec

/-- The expected-block search of `batch_evaluate.py` line 78: marker
`**Expected Response Should Include:**`, lazy capture stopped by a
lookahead for newline-plus-asterisks or end of input, under `re.DOTALL`. -/
def expected_capture (sec : List Char) : Option (List Char) :=
  re_search_block "**Expected Response Should Include:**".data true ["\n**".data] sec

/-- The response-type search of `batch_evaluate.py` line 82: marker
`**Response Type:**`, lazy capture stopped by a lookahead for a newline or
end of input, without `re.DOTALL` (the capture stays on one line). -/
def rtype_capture (sec : List Char) : Option (List Char) :=
  re_search_block "**Response Type:**".data false ["\n".data] sec

/-- One question definition extracted by
`batch_evaluate.parse_evaluation_dataset`. -/
structure Question where
  question : String
  expected_info : String
  response_type : String
deriving DecidableEq, Repr

/-- The per-section body of the loop of `parse_evaluation_dataset`
(`batch_evaluate.py` lines 66-89): a section that is empty after
stripping, or that starts with `#`, is skipped; a section without a
question match is skipped; otherwise the three captures are stripped, with
`""` for a missing expected block and `"General"` for a missing response
type. -/
def parse_section (sec : List Char) : Option Question :=
  if (pyStripList sec).isEmpty then none
  else if sec.head? = some '#' then none
  else
    match question_capture sec with
    | none => none
    | some q =>
      some
        { question := ⟨pyStripList q⟩
          expected_info := ⟨pyStripList ((expected_capture sec).getD [])⟩
          response_type :=
            match rtype_capture sec with
            | some r => ⟨pyStripList r⟩
            | none => "General" }

/-- Embedding of `batch_evaluate.parse_evaluation_dataset(file_path)`
(`batch_evaluate.py` lines 47-99), applied to the file content (reading
the file and the `FileNotFoundError` handling are outside this model):
split on `\n---\n` lines and collect the question definitions of the
surviving sections in file order. -/
def parse_evaluation_dataset (content : String) : List Question :=
  (re_split_sep "\n---\n" content).filterMap (fun sec => parse_section sec.data)

/-- A 1500-character document body, used to exercise the truncation path of
`format_context`. -/
def big_doc : String := ⟨List.replicate 1500 'a'⟩

/-- A 999-character document body, below the truncation cap. -/
def small_doc : String := ⟨List.replicate 999 'b'⟩

/-- A metadata dictionary with all three keys absent (every field falls
back to `"unknown"`). -/
def plain_meta : Metadata := ⟨none, none, none⟩

/-- A duplicated document body for the deduplication claim. -/
def c2_doc : String := "Apollo 11 landed on the Moon."

/-- A retrieval result with one document, used as the non-empty retrieval
of the context-step claim. -/
def one_doc_retrieval : DocsResult :=
  { documents := [["Apollo 11 was the first crewed Moon landing mission."]]
    metadatas := [[⟨some "apollo_11", some "report.txt", some "mission_report"⟩]]
    distances := some [[1 / 4]]
    ids := some [["doc_001"]] }

/-- A successful evaluation record (no error, one perfect metric score). -/
def okRec : EvalResult :=
  { question := "q", answer := some "a", context := some "ctx", retrieved_docs := 1
    metrics := [("faithfulness", .num 1)], error := none }

/-- A failed evaluation record (truthy error, no metrics). -/
def badRec : EvalResult :=
  { question := "q", answer := none, context := none, retrieved_docs := 0
    metrics := [], error := some "No documents retrieved" }

/-- A ten-record batch with four successes (40 percent). -/
def rs4 : List EvalResult := List.replicate 4 okRec ++ List.replicate 6 badRec

/-- A ten-record batch with five successes (50 percent). -/
def rs5 : List EvalResult := List.replicate 5 okRec ++ List.replicate 5 badRec

/-- The five-record batch of the aggregation claim: three successes with
faithfulness scores 0.8, 0.6 and 1.0, and two failed records.  The failed
records deliberately carry faithfulness entries of their own, to exhibit
that records with a truthy error contribute nothing to the statistics. -/
def c4_records : List EvalResult :=
  [{ question := "q1", answer := some "a1", context := some "c", retrieved_docs := 3
     metrics := [("faithfulness", .num (4 / 5))], error := none },
   { question := "q2", answer := some "a2", context := some "c", retrieved_docs := 3
     metrics := [("faithfulness", .num (3 / 5))], error := none },
   { question := "q3", answer := some "a3", context := some "c", retrieved_docs := 3
     metrics := [("faithfulness", .num 1)], error := none },
   { question := "q4", answer := none, context := none, retrieved_docs := 0
     metrics := [("faithfulness", .num (99 / 100))], error := some "No documents retrieved" },
   { question := "q5", answer := some "Error generating response: timeout", context := some "c"
     retrieved_docs := 3, metrics := [("faithfulness", .num 0)]
     error := some "Error generating response: timeout" }]

/-- A two-question evaluation dataset in the documented file format: a
leading `#` header section, a first question section with all three
labelled blocks, a second question section without the response-type
block, and a trailing whitespace-only section. -/
def c9_dataset : String :=
  "# NASA RAG Evaluation Dataset\n\nQuestions for batch evaluation.\n---\n**Question:**\nWho was the commander of Apollo 11?\n\n**Expected Response Should Include:**\nNeil Armstrong\nMission commander role\n\n**Response Type:**\nFactual\n---\n**Question:**\nWhat happened to Apollo 13?\n\n**Expected Response Should Include:**\nOxygen tank explosion\n---\n   \n"

/-! ## Helper lemmas -/

theorem str_data_append (a b : String) : (a ++ b).data = a.data ++ b.data := by
  cases a; cases b; rfl

theorem join_newline_mem_data (l : List String) (x : String) (hx : x ∈ l) :
    ∃ pre post : List Char, (join_newline l).data = pre ++ x.data ++ post := by
  induction l with
  | nil => cases hx
  | cons a t ih =>
    cases t with
    | nil =>
      rcases List.mem_singleton.mp hx with rfl
      exact ⟨[], [], by simp [join_newline]⟩
    | cons b t' =>
      rcases List.mem_cons.mp hx with rfl | hmem
      · refine ⟨[], '\n' :: (join_newline (b :: t')).data, ?_⟩
        simp [join_newline, str_data_append]
      · rcases ih hmem with ⟨pre, post, h⟩
        refine ⟨a.data ++ '\n' :: pre, post, ?_⟩
        simp [join_newline, str_data_append, h]

theorem mem_context_parts_loop (l : List (String × Metadata)) :
    ∀ (i k : Nat) (doc : String) (meta : Metadata), l[i]? = some (doc, meta) →
      doc_content doc ∈ context_parts_loop k l := by
  induction l with
  | nil => intro i k doc meta h; simp at h
  | cons p t ih =>
    intro i k doc meta h
    cases i with
    | zero =>
      have hp : p = (doc, meta) := by simpa using h
      subst hp
      simp [context_parts_loop]
    | succ i' =>
      have h' : t[i']? = some (doc, meta) := by simpa using h
      obtain ⟨pd, pm⟩ := p
      simp only [context_parts_loop, List.mem_cons]
      exact Or.inr (Or.inr (ih i' (k + 1) doc meta h'))

/-! ## Claim theorems -/

/-- C7: for every document/metadata pair given to context assembly, the
assembled context contains the document body, truncated to exactly its
first 1000 characters followed by the `"..."` marker when the body exceeds
1000 characters, and unchanged (no marker) otherwise. -/
theorem c7_truncation (docs : List String) (metas : List Metadata) (i : Nat)
    (doc : String) (meta : Metadata) (h : (docs.zip metas)[i]? = some (doc, meta)) :
    ∃ pre post : List Char,
      (format_context docs metas).data
        = pre ++ (if 1000 < doc.data.length then doc.data.take 1000 ++ "...".data
                  else doc.data) ++ post := by
  have hne : docs.isEmpty = false := by
    cases docs with
    | nil => simp at h
    | cons a t => rfl
  have hmem : doc_content doc
      ∈ "Retrieved Context from NASA Mission Documents:\n"
        :: context_parts_loop 1 (docs.zip metas) :=
    List.mem_cons_of_mem _ (mem_context_parts_loop _ i 1 doc meta h)
  obtain ⟨pre, post, hjoin⟩ := join_newline_mem_data _ _ hmem
  have hdc : (doc_content doc).data
      = (if 1000 < doc.data.length then doc.data.take 1000 ++ "...".data else doc.data) := by
    by_cases h1 : 1000 < doc.data.length
    · unfold doc_content
      rw [if_pos h1, if_pos h1, str_data_append]
    · unfold doc_content
      rw [if_neg h1, if_neg h1]
  refine ⟨pre, post, ?_⟩
  have hfc : format_context docs metas
      = join_newline
          ("Retrieved Context from NASA Mission Documents:\n"
            :: context_parts_loop 1 (docs.zip metas)) := by
    simp [format_context, hne]
  rw [hfc, hjoin, hdc]

/-- Witness for C7: in a two-document context whose first body has 1500
characters and whose second has 999, the first appears as its first 1000
characters plus the marker and the second appears in full. -/
theorem c7_truncation_witness :
    (∃ pre post : List Char,
      (format_context [big_doc, small_doc] [plain_meta, plain_meta]).data
        = pre ++ (big_doc.data.take 1000 ++ "...".data) ++ post)
    ∧ (∃ pre post : List Char,
      (format_context [big_doc, small_doc] [plain_meta, plain_meta]).data
        = pre ++ small_doc.data ++ post) := by
  constructor
  · have h := c7_truncation [big_doc, small_doc] [plain_meta, plain_meta] 0 big_doc plain_meta rfl
    have hbig : 1000 < big_doc.data.length := by
      show 1000 < (List.replicate 1500 'a').length
      rw [List.length_replicate]
      norm_num
    obtain ⟨pre, post, heq⟩ := h
    rw [if_pos hbig] at heq
    exact ⟨pre, post, heq⟩
  · have h := c7_truncation [big_doc, small_doc] [plain_meta, plain_meta] 1 small_doc plain_meta rfl
    have hsmall : ¬ 1000 < small_doc.data.length := by
      show ¬ 1000 < (List.replicate 999 'b').length
      rw [List.length_replicate]
      norm_num
    obtain ⟨pre, post, heq⟩ := h
    rw [if_neg hsmall] at heq
    exact ⟨pre, post, heq⟩

/-- C2 (code bug): the claim — and the deduplication announced by the
callers of `format_context` ("Format context with deduplication",
`batch_evaluate.py` line 143; "with deduplication", `chat.py` line 77) —
says that of two documents sharing an identity key only the first
occurrence is retained.  The `format_context` defined in src performs no
deduplication: two identical document bodies under identical metadata
yield two full source sections, `[Source 1]` and `[Source 2]`. -/
theorem c2_format_context_keeps_duplicates :
    format_context [c2_doc, c2_doc] [plain_meta, plain_meta]
      = "Retrieved Context from NASA Mission Documents:\n\n\n[Source 1] Mission: Unknown | Document: unknown | Category: Unknown\nApollo 11 landed on the Moon.\n\n[Source 2] Mission: Unknown | Document: unknown | Category: Unknown\nApollo 11 landed on the Moon." := by
  decide

/-- C1 (code bug): the claim says the context-assembly step always
succeeds, so a record with non-empty retrieval is never marked failed by
it.  In src, `run_single_evaluation` passes four positional arguments to
the two-parameter `rag_client.format_context`, which raises `TypeError`;
the surrounding handler marks the record failed with that message even
though one document was retrieved, and the pipeline never reaches
generation or scoring. -/
theorem c1_context_call_raises_type_error :
    run_single_evaluation format_context_call_src (fun _ => .ok "A fine answer.") true
        (.ok []) "key" "Who landed on the Moon first?" (.ok (some one_doc_retrieval))
      = { question := "Who landed on the Moon first?", answer := none, context := none,
          retrieved_docs := 1, metrics := [],
          error := some "format_context() takes 2 positional arguments but 4 were given" } := by
  decide

/-- C5: with the scorer available and set up, if exactly one of the three
configured metrics raises while the other two succeed, the returned
mapping has numeric entries for the two succeeding metrics, the score
`0.0` for the failing metric and a companion `"<metric>_error"` entry with
the failure detail, whichever metric fails; the remaining metrics are
still evaluated. -/
theorem c5_metric_failure_isolation (a c : ℚ) (d q ans : String) (ctxs : List String) :
    (evaluate_response_quality q ans ctxs true (.ok ()) [.error d, .ok a, .ok c]
      = [("ResponseRelevancy", .num 0), ("ResponseRelevancy_error", .str d),
         ("Faithfulness", .num a), ("NonLLMContextPrecisionWithReference", .num c)])
    ∧ (evaluate_response_quality q ans ctxs true (.ok ()) [.ok a, .error d, .ok c]
      = [("ResponseRelevancy", .num a), ("Faithfulness", .num 0),
         ("Faithfulness_error", .str d), ("NonLLMContextPrecisionWithReference", .num c)])
    ∧ (evaluate_response_quality q ans ctxs true (.ok ()) [.ok a, .ok c, .error d]
      = [("ResponseRelevancy", .num a), ("Faithfulness", .num c),
         ("NonLLMContextPrecisionWithReference", .num 0),
         ("NonLLMContextPrecisionWithReference_error", .str d)]) :=
  ⟨rfl, rfl, rfl⟩

/-- C6: the answer-generation adapter is a total function of its oracle
(it never raises to its caller); whenever the underlying service fails
with detail `d` it returns exactly `"Error generating response: " ++ d`,
and whenever the service succeeds it returns the generated text
unchanged. -/
theorem c6_generation_adapter_contract (complete : List Message → Except String String)
    (openai_key user_message context : String) (conversation_history : List Message) :
    (∀ d, complete (build_messages user_message context conversation_history) = .error d →
      generate_response complete openai_key user_message context conversation_history
        = "Error generating response: " ++ d)
    ∧ (∀ t, complete (build_messages user_message context conversation_history) = .ok t →
      generate_response complete openai_key user_message context conversation_history = t) := by
  constructor <;> intro x hx <;> simp [generate_response, hx]

/-- Witness for C6: a service failure with detail `boom` yields the marked
error text, and a successful completion is passed through unchanged. -/
theorem c6_generation_adapter_contract_witness :
    generate_response (fun _ => .error "boom") "key" "Who?" "ctx" []
        = "Error generating response: boom"
    ∧ generate_response (fun _ => .ok "Neil Armstrong commanded Apollo 11.") "key" "Who?" "ctx" []
        = "Neil Armstrong commanded Apollo 11." :=
  ⟨(c6_generation_adapter_contract (fun _ => .error "boom") "key" "Who?" "ctx" []).1 "boom" rfl,
   (c6_generation_adapter_contract (fun _ => .ok "Neil Armstrong commanded Apollo 11.") "key"
      "Who?" "ctx" []).2 "Neil Armstrong commanded Apollo 11." rfl⟩

/-- Counterexample to C3 as stated: a question whose generation step
returns marker-prefixed text (the context call taken as succeeding, see
`format_context_call_ok`) yields a record whose `error` equals that text
and whose metrics stay empty — but whose `answer` field is not absent:
`run_single_evaluation` stores the generated text in the record before the
marker check (`batch_evaluate.py` line 165). -/
theorem c3_answer_field_not_absent :
    (run_single_evaluation format_context_call_ok (fun _ => .error "boom") true (.ok [])
        "key" "Who?" (.ok (some one_doc_retrieval))).answer
        = some "Error generating response: boom"
    ∧ pyStartswith "Error generating response: boom" "Error generating response:" = true
    ∧ (run_single_evaluation format_context_call_ok (fun _ => .error "boom") true (.ok [])
        "key" "Who?" (.ok (some one_doc_retrieval))).error
        = some "Error generating response: boom"
    ∧ (run_single_evaluation format_context_call_ok (fun _ => .error "boom") true (.ok [])
        "key" "Who?" (.ok (some one_doc_retrieval))).metrics = []
    ∧ (run_single_evaluation format_context_call_ok (fun _ => .error "boom") true (.ok [])
        "key" "Who?" (.ok (some one_doc_retrieval))).answer ≠ none := by
  refine ⟨?_, ?_, ?_, ?_, ?_⟩ <;> decide

/-- C3 as amended: whenever the context call returns normally and the
generated answer starts with the fixed error marker, the record carries
that text as its `error`, computes no metrics, and stores that same text
in its `answer` field (the answer is assigned before the marker check, so
it is not absent). -/
theorem c3_generation_error_record
    (fc : List String → List Metadata → Option (List ℚ) → Option (List String) →
      Except String String)
    (complete : List Message → Except String String)
    (ragas_available : Bool) (ragas_eval : Except String (List (String × MetricValue)))
    (openai_key question : String)
    (docs0 : List String) (drest : List (List String))
    (metas0 : List Metadata) (mrest : List (List Metadata))
    (dists : Option (List (List ℚ))) (idss : Option (List (List String))) (ctx : String)
    (hfc : fc docs0 metas0 (distances0 ⟨docs0 :: drest, metas0 :: mrest, dists, idss⟩)
        (ids0 ⟨docs0 :: drest, metas0 :: mrest, dists, idss⟩) = .ok ctx)
    (hans : pyStartswith (generate_response complete openai_key question ctx [])
        "Error generating response:" = true) :
    run_single_evaluation fc complete ragas_available ragas_eval openai_key question
        (.ok (some ⟨docs0 :: drest, metas0 :: mrest, dists, idss⟩))
      = { question := question
          answer := some (generate_response complete openai_key question ctx [])
          context := some ctx
          retrieved_docs := docs0.length
          metrics := []
          error := some (generate_response complete openai_key question ctx []) } := by
  simp [run_single_evaluation, emptyResult, hfc, hans]

/-- Witness for C3 as amended: with a one-document retrieval and a
generation service failing with detail `boom`, the `error` and
`answer` both hold the marked text and no metrics are computed. -/
theorem c3_generation_error_record_witness :
    run_single_evaluation format_context_call_ok (fun _ => .error "boom") true (.ok [])
        "key" "Who?"
        (.ok (some ⟨[["Apollo 11 was the first crewed Moon landing mission."]],
          [[plain_meta]], some [[1 / 4]], some [["doc_001"]]⟩))
      = { question := "Who?"
          answer := some "Error generating response: boom"
          context := some (format_context ["Apollo 11 was the first crewed Moon landing mission."]
            [plain_meta])
          retrieved_docs := 1
          metrics := []
          error := some "Error generating response: boom" } :=
  c3_generation_error_record format_context_call_ok (fun _ => .error "boom") true (.ok [])
    "key" "Who?" ["Apollo 11 was the first crewed Moon landing mission."] [] [plain_meta] []
    (some [[1 / 4]]) (some [["doc_001"]])
    (format_context ["Apollo 11 was the first crewed Moon landing mission."] [plain_meta])
    rfl (by decide)

/-- C4: on the five-record batch `c4_records` (three successes with
faithfulness 0.8, 0.6, 1.0 and two failed records), the aggregate reports
`successful = 3`, `failed = 2`, and for faithfulness mean 0.8 over a count
of 3: the failed records — although they carry faithfulness entries —
contribute nothing to any metric statistic (the min, max, median and
sample variance are likewise those of the three successful scores). -/
theorem c4_aggregation_correctness :
    calculate_statistics c4_records
      = { total_questions := 5, successful := 3, failed := 2
          metrics := [("faithfulness",
            { mean := 4 / 5, median := 4 / 5, stdevSq := 1 / 25
              min := 3 / 5, max := 1, count := 3 })] } := by
  have hfold : c4_records.foldl stepRecord (0, 0, [])
      = (3, 2, [("faithfulness", [4 / 5, 3 / 5, 1])]) := rfl
  have hms : metric_stats [4 / 5, 3 / 5, 1]
      = { mean := 4 / 5, median := 4 / 5, stdevSq := 1 / 25
          min := 3 / 5, max := 1, count := 3 } := by
    unfold metric_stats pyMedian pySorted
    norm_num [insertSorted, MetricStats.mk.injEq]
  unfold calculate_statistics
  simp only [hfold]
  simp only [List.filter, List.map, BatchStats.mk.injEq]
  norm_num [hms, c4_records]

/-- C9: parsing the two-question dataset `c9_dataset` (sections separated
by `---` lines; the first question section has all three labelled blocks,
the second omits the response type; a `#` header section and a
whitespace-only section are also present) yields exactly the two question
definitions, fields trimmed of surrounding whitespace, with `"General"`
substituted for the missing response type; the header and empty sections
yield no question definition. -/
theorem c9_parser_round_trip :
    parse_evaluation_dataset c9_dataset
      = [{ question := "Who was the commander of Apollo 11?"
           expected_info := "Neil Armstrong\nMission commander role"
           response_type := "Factual" },
         { question := "What happened to Apollo 13?"
           expected_info := "Oxygen tank explosion"
           response_type := "General" }] := by
  decide

theorem countP_split_length (rs : List EvalResult) :
    rs.length = rs.countP (fun r => !pyTruthy r.error) + rs.countP (fun r => pyTruthy r.error) := by
  induction rs with
  | nil => rfl
  | cons r rs ih =>
    rcases hr : pyTruthy r.error with _ | _ <;>
      simp [List.countP_cons, hr, ih] <;> omega

theorem foldl_stepRecord_counts (rs : List EvalResult) :
    ∀ acc : Nat × Nat × List (String × List ℚ),
      (rs.foldl stepRecord acc).1 = acc.1 + rs.countP (fun r => !pyTruthy r.error)
      ∧ (rs.foldl stepRecord acc).2.1 = acc.2.1 + rs.countP (fun r => pyTruthy r.error) := by
  induction rs with
  | nil => intro acc; simp
  | cons r rs ih =>
    intro acc
    rcases hr : pyTruthy r.error with _ | _
    · have h := ih (stepRecord acc r)
      simp only [List.foldl_cons, List.countP_cons, hr]
      rw [h.1, h.2]
      simp [stepRecord, hr]
      omega
    · have h := ih (stepRecord acc r)
      simp only [List.foldl_cons, List.countP_cons, hr]
      rw [h.1, h.2]
      simp [stepRecord, hr]
      omega

/-- C10: for every record list, `calculate_statistics` reports
`total_questions` equal to the length of the input and to
`successful + failed`; a record is counted as failed exactly when its
`error` field is truthy (present and non-empty) and as successful
otherwise, so every record is counted exactly once. -/
theorem c10_record_counting (results : List EvalResult) :
    (calculate_statistics results).total_questions = results.length
    ∧ (calculate_statistics results).total_questions
        = (calculate_statistics results).successful + (calculate_statistics results).failed
    ∧ (calculate_statistics results).failed
        = results.countP (fun r => pyTruthy r.error)
    ∧ (calculate_statistics results).successful
        = results.countP (fun r => !pyTruthy r.error) := by
  have h := foldl_stepRecord_counts results (0, 0, [])
  have hs : (calculate_statistics results).successful
      = results.countP (fun r => !pyTruthy r.error) := by
    simpa [calculate_statistics] using h.1
  have hf : (calculate_statistics results).failed
      = results.countP (fun r => pyTruthy r.error) := by
    simpa [calculate_statistics] using h.2
  have ht : (calculate_statistics results).total_questions = results.length := rfl
  refine ⟨ht, ?_, hf, hs⟩
  rw [ht, hs, hf]
  exact countP_split_length results

/-- C8: for a non-empty batch, `main` exits non-zero exactly when the
fraction of successful records over the total is strictly below one
half. -/
theorem c8_exit_policy (results : List EvalResult) (h : results ≠ []) :
    main_exit_code (calculate_statistics results) ≠ 0
      ↔ ((calculate_statistics results).successful : ℚ) / (results.length : ℚ) < 1 / 2 := by
  have ht : (calculate_statistics results).total_questions = results.length := rfl
  have hpos : 0 < results.length := List.length_pos.mpr h
  unfold main_exit_code success_rate
  rw [ht, if_pos hpos]
  by_cases hlt :
      ((calculate_statistics results).successful : ℚ) / (results.length : ℚ) < 1 / 2
  · simp [hlt]
  · simp [hlt]

/-- Witness for C8: the ten-question batch with four successes (40
percent) is an overall failing run, while the one with five successes (50
percent) exits with code zero. -/
theorem c8_exit_policy_witness :
    main_exit_code (calculate_statistics rs4) ≠ 0
    ∧ main_exit_code (calculate_statistics rs5) = 0 := by
  constructor
  · refine (c8_exit_policy rs4 (by decide)).mpr ?_
    have hs : (calculate_statistics rs4).successful = 4 := rfl
    have hl : rs4.length = 10 := rfl
    rw [hs, hl]
    norm_num
  · have h := c8_exit_policy rs5 (by decide)
    have hge : ¬ ((calculate_statistics rs5).successful : ℚ) / (rs5.length : ℚ) < 1 / 2 := by
      have hs : (calculate_statistics rs5).successful = 5 := rfl
      have hl : rs5.length = 10 := rfl
      rw [hs, hl]
      norm_num
    exact not_ne_iff.mp (mt h.mp hge)
